import Mathlib

/-!
Verification of the Safe multi-signature transaction core of the
safe-sign-example repository.

The development shallowly embeds the JavaScript/TypeScript source:

* JavaScript strings are modelled as Lean `String`s; character-level
  operations work on `String.data` (`List Char`), which agrees with the
  JavaScript view for the ASCII hex strings this code manipulates.
* `Array.prototype.sort` with the comparator
  `(a, b) => a.owner.toLowerCase().localeCompare(b.owner.toLowerCase())`
  is modelled as a stable insertion sort by the lexicographic order on the
  lowercased owner characters (for ASCII hex strings `localeCompare`
  agrees with code-unit lexicographic comparison, and ES2019 `sort` is
  stable; `List.insertionSort` is stable in the same direction).
* JavaScript 32-bit integer coercion (`hash & hash`, `<<`) is made
  explicit through `toInt32`.
* The fallible pieces (HTTP responses, gas estimation) are passed in as
  explicit values (`Except`/`Option`), and a `throw new Error(...)` is an
  explicit outcome constructor.
-/

set_option maxRecDepth 8000

namespace SafeSign

/-! ## JavaScript string helpers -/

/-- ASCII lowercase of a single character, the behaviour of JavaScript
`String.prototype.toLowerCase` on the ASCII range used by hex addresses. -/
def jsToLowerChar (c : Char) : Char :=
  if 'A' ≤ c ∧ c ≤ 'Z' then Char.ofNat (c.toNat + 32) else c

/-- Lowercased character sequence of a string: the comparison key used by
`a.owner.toLowerCase().localeCompare(b.owner.toLowerCase())`. -/
def jsToLower (s : String) : List Char := s.data.map jsToLowerChar

/-- `s.startsWith('0x') ? s.slice(2) : s` at the character level. -/
def stripHexMarker : List Char → List Char
  | '0' :: 'x' :: rest => rest
  | s => s

/-! ## Confirmations and the signature blob
(`SafeClient.executeTransaction`, src/public/app.js) -/

/-- A relay confirmation entry: `{owner, signature}`. -/
structure Confirmation where
  owner : String
  signature : String
deriving DecidableEq

/-- The truthiness filter `confirmations.filter(c => c.signature && c.owner)`:
both strings non-empty. -/
def validConfirmation (c : Confirmation) : Bool :=
  c.signature != "" && c.owner != ""

/-- Comparator key of a confirmation: the lowercased owner characters. -/
def ownerKey (c : Confirmation) : List Char := jsToLower c.owner

/-- The sort order used by `validConfirmations.sort(...)`: ascending,
case-insensitive, on the owner hex string. -/
def ownerLe (a b : Confirmation) : Prop := ownerKey a ≤ ownerKey b

instance : DecidableRel ownerLe :=
  fun a b => inferInstanceAs (Decidable (ownerKey a ≤ ownerKey b))

instance : IsTotal Confirmation ownerLe :=
  ⟨fun a b => le_total (ownerKey a) (ownerKey b)⟩

instance : IsTrans Confirmation ownerLe :=
  ⟨fun _ _ _ => le_trans⟩

/-- Filter to truthy confirmations, then sort ascending by owner — the
state of `validConfirmations` after the `filter` and `sort` lines. -/
def sortedValidConfirmations (confs : List Confirmation) : List Confirmation :=
  List.insertionSort ownerLe (confs.filter validConfirmation)

/-- The length gate inside the blob loop: the signature, with any `0x`
marker removed, must be exactly 130 hex characters (65 bytes). -/
def acceptedSignature (c : Confirmation) : Bool :=
  (stripHexMarker c.signature.data).length == 130

/-- One iteration of the `for (const confirmation of validConfirmations)`
loop: append the 130-character signature, or skip it with a warning. -/
def blobStep (acc : List Char) (c : Confirmation) : List Char :=
  if (stripHexMarker c.signature.data).length == 130 then
    acc ++ stripHexMarker c.signature.data
  else acc

/-- The `signatures` string accumulated by the loop, starting from `'0x'`. -/
def signaturesBlob (confs : List Confirmation) : List Char :=
  (sortedValidConfirmations confs).foldl blobStep ('0' :: 'x' :: [])

/-- The confirmations whose signatures actually enter the blob, in blob
order: sorted valid confirmations with a 130-character signature. -/
def acceptedConfirmations (confs : List Confirmation) : List Confirmation :=
  (sortedValidConfirmations confs).filter acceptedSignature

/-! ## The ad-hoc transaction hash
(`SafeManager.calculateSafeTxHash`, src/unnamed/part_001) -/

/-- A proposed Safe transaction as fed to `calculateSafeTxHash`.  The
field set follows the source object; `safeTxGas` is carried to record
that the hash ignores it. -/
structure ProposedTransaction where
  «to» : String
  value : String
  data : String
  operation : Nat
  safeTxGas : Nat
deriving DecidableEq

/-- JavaScript `ToInt32`: reduce mod `2^32` into `[-2^31, 2^31)`. -/
def toInt32 (n : Int) : Int :=
  let m := n % 4294967296
  if m < 2147483648 then m else m - 4294967296

/-- One step of the loop
`hash = ((hash << 5) - hash) + char; hash = hash & hash`. -/
def simpleHashStep (hash : Int) (c : Char) : Int :=
  toInt32 (toInt32 (hash * 32) - hash + c.toNat)

/-- The 32-bit string hash accumulated over the characters of the input. -/
def simpleHash (s : List Char) : Int := s.foldl simpleHashStep 0

/-- `'0'.repeat(w - s.length) + s`, the effect of `padStart(w, '0')`. -/
def padStartZeros (w : Nat) (s : List Char) : List Char :=
  List.replicate (w - s.length) '0' ++ s

/-- `SafeManager.calculateSafeTxHash`: concatenate
`to + value + data + operation + nonce`, run the 32-bit string hash, and
render `'0x' + Math.abs(hash).toString(16).padStart(64, '0')`. -/
def calculateSafeTxHash (tx : ProposedTransaction) (nonce : Nat) : List Char :=
  let dataStr := tx.«to» ++ tx.value ++ tx.data ++ toString tx.operation ++ toString nonce
  '0' :: 'x' :: padStartZeros 64 (Nat.toDigits 16 (simpleHash dataStr.data).natAbs)

/-! ## Execution gating and gas handling
(`SafeClient.executeTransaction`, src/public/app.js) -/

/-- The parts of the client configuration read by `executeTransaction`. -/
structure ExecConfig where
  rpcUrl : String
  privateKey : String
deriving DecidableEq

/-- The relay transaction detail fields read by `executeTransaction` and
`renderTransactionCard`.  `Option` models absent JSON fields. -/
structure TxDetails where
  confirmationsRequired : Option Nat
  confirmations : Option (List Confirmation)
  isExecuted : Bool
deriving DecidableEq

/-- `txData.confirmationsRequired || 1`: absent or `0` falls back to 1. -/
def confirmationsRequiredOf (t : TxDetails) : Nat :=
  match t.confirmationsRequired with
  | some n => if n = 0 then 1 else n
  | none => 1

/-- `txData.confirmations ? txData.confirmations.length : 0`. -/
def confirmationsCountOf (t : TxDetails) : Nat :=
  (t.confirmations.getD []).length

/-- `gasLimit` after the `try { estimateGas } catch { ... }` block: a
successful estimate is scaled by `mul(120).div(100)`; a thrown estimation
error falls back to `BigNumber.from('500000')`. -/
def executionGasLimit : Except String Nat → Nat
  | Except.ok g => g * 120 / 100
  | Except.error _ => 500000

/-- Where `executeTransaction` ends up before/at the chain boundary.
Every constructor except `chainAttempt` models a `throw new Error(...)`
taken before any JSON-RPC interaction; `chainAttempt` models reaching the
on-chain calls with the assembled signature blob and gas limit. -/
inductive ExecOutcome where
  | insufficientConfirmations (count required : Nat)
  | alreadyExecuted
  | rpcNotConfigured
  | privateKeyNotConfigured
  | chainAttempt (signatures : List Char) (gasLimit : Nat)
deriving DecidableEq

/-- The decision sequence of `executeTransaction` after the transaction
details have been fetched, in source order: threshold check, executed
check, configuration checks, then the chain attempt.  The outcome of the
chain's gas estimation is passed in as `estimatedGas`. -/
def executeTransactionStep (cfg : ExecConfig) (argPk : String) (t : TxDetails)
    (estimatedGas : Except String Nat) : ExecOutcome :=
  if confirmationsCountOf t < confirmationsRequiredOf t then
    ExecOutcome.insufficientConfirmations (confirmationsCountOf t) (confirmationsRequiredOf t)
  else if t.isExecuted then
    ExecOutcome.alreadyExecuted
  else if cfg.rpcUrl = "" then
    ExecOutcome.rpcNotConfigured
  else if argPk = "" ∧ cfg.privateKey = "" then
    ExecOutcome.privateKeyNotConfigured
  else
    ExecOutcome.chainAttempt (signaturesBlob (t.confirmations.getD []))
      (executionGasLimit estimatedGas)

/-- The `Error` message `executeTransaction` throws for each early-exit
outcome; `none` means no error reaches the caller from this phase. -/
def execThrownError : ExecOutcome → Option String
  | ExecOutcome.insufficientConfirmations c r =>
      some ("Insufficient confirmations: " ++ toString c ++ "/" ++ toString r)
  | ExecOutcome.alreadyExecuted => some "Transaction already executed"
  | ExecOutcome.rpcNotConfigured => some "RPC URL not configured"
  | ExecOutcome.privateKeyNotConfigured => some "Private key not configured"
  | ExecOutcome.chainAttempt _ _ => none

/-! ## Transaction card flags
(`SafeManager.renderTransactionCard`, src/unnamed/part_001) -/

/-- `isConfirmed`: `confirmations.length >= confirmationsRequired` with
the same `|| []` and `|| 1` defaults. -/
def isConfirmedCard (t : TxDetails) : Bool :=
  decide (confirmationsRequiredOf t ≤ confirmationsCountOf t)

/-- `confirmations.some(conf => conf.owner.toLowerCase() === addr.toLowerCase())`. -/
def hasSignerConfirmed (t : TxDetails) (addr : String) : Bool :=
  (t.confirmations.getD []).any (fun c => jsToLower c.owner == jsToLower addr)

/-- `canConfirm = !isConfirmed && !transaction.isExecuted && !hasCurrentSignerConfirmed`. -/
def canConfirm (t : TxDetails) (addr : String) : Bool :=
  !isConfirmedCard t && !t.isExecuted && !hasSignerConfirmed t addr

/-- `canExecute = isConfirmed && !transaction.isExecuted`. -/
def canExecute (t : TxDetails) : Bool :=
  isConfirmedCard t && !t.isExecuted

/-! ## Relay error surfacing
(`SafeClient.confirm`, src/public/app.js, and
`SafeManager.confirmTransactionFallback`, src/unnamed/part_001) -/

/-- The message of the `Error` thrown by `SafeClient.confirm` on a
non-2xx response.  `errorBody` is the response body the code reads with
`response.text()`; the code logs it to the console but the thrown message
is built only from status, statusText and URL. -/
def confirmHttpErrorMessage (status : Nat) (statusText url errorBody : String) : String :=
  "HTTP error! status: " ++ toString status ++ " - " ++ statusText ++ ". URL: " ++ url

/-- The message of the `Error` thrown by
`SafeManager.confirmTransactionFallback` on a non-2xx response:
`Failed to confirm transaction: ${response.statusText} - ${errorText}`. -/
def confirmFallbackErrorMessage (statusText errorText : String) : String :=
  "Failed to confirm transaction: " ++ statusText ++ " - " ++ errorText

/-- The message of the `Error` thrown by the propose path `send`
(src/public/send-transactions.js) on a non-2xx response:
`HTTP error! status: ${response.status}, message: ${errorText}`. -/
def proposeHttpErrorMessage (status : Nat) (errorText : String) : String :=
  "HTTP error! status: " ++ toString status ++ ", message: " ++ errorText

/-! ## Configuration persistence
(`SafeManager.saveConfiguration` in src/public/app.js and in
src/unnamed/part_001) -/

/-- The key/value record `JSON.stringify`-ed into
`localStorage['safeManagerConfig']` by the app.js `saveConfiguration`:
the private key field of the form is deliberately left out. -/
def appJsSavedConfigRecord (txServiceUrl rpcUrl safeAddress privateKey : String) :
    List (String × String) :=
  [("txServiceUrl", txServiceUrl), ("rpcUrl", rpcUrl), ("safeAddress", safeAddress)]

/-- The configuration form fields of the part_001 variant. -/
structure SafeConfig where
  safeAddress : String
  rpcUrl : String
  chainId : Nat
  txServiceUrl : String
  privateKey : String
deriving DecidableEq

/-- `c` is an ASCII hex digit (`[a-fA-F0-9]`). -/
def isHexDigit (c : Char) : Bool :=
  ('0' ≤ c && c ≤ '9') || ('a' ≤ c && c ≤ 'f') || ('A' ≤ c && c ≤ 'F')

/-- The regular expression `^0x[a-fA-F0-9]{n}$`. -/
def isHexStringOfLength (n : Nat) (s : String) : Bool :=
  match s.data with
  | '0' :: 'x' :: rest => rest.length == n && rest.all isHexDigit
  | _ => false

/-- `validateConfiguration` of the part_001 variant: all fields truthy,
Safe address matching `^0x[a-fA-F0-9]{40}$`, private key matching
`^0x[a-fA-F0-9]{64}$`. -/
def part001ValidateConfiguration (c : SafeConfig) : Bool :=
  c.safeAddress != "" && c.rpcUrl != "" && c.txServiceUrl != "" && c.privateKey != "" &&
  isHexStringOfLength 40 c.safeAddress && isHexStringOfLength 64 c.privateKey

/-- The part_001 `saveConfiguration`: when validation passes, the whole
config object — private key included — is `JSON.stringify`-ed into
`localStorage['safeConfig']`; `none` models the early return on invalid
input (nothing persisted). -/
def part001SaveConfiguration (c : SafeConfig) : Option (List (String × String)) :=
  if part001ValidateConfiguration c then
    some [("safeAddress", c.safeAddress), ("rpcUrl", c.rpcUrl),
          ("chainId", toString c.chainId), ("txServiceUrl", c.txServiceUrl),
          ("privateKey", c.privateKey)]
  else
    none

/-! ## Signer address lookup
(`getSignerAddress`, src/public/send-transactions.js, used by the browser
propose path `send`) -/

/-- `privateKey.startsWith('0x') ? privateKey.slice(2) : privateKey`. -/
def cleanPrivateKey (privateKey : String) : String :=
  match privateKey.data with
  | '0' :: 'x' :: rest => String.mk rest
  | _ => privateKey

/-- First hardcoded well-known test private key recognised by
`getSignerAddress`. -/
def hardhatKey0 : String :=
  "ac0974bec39a17e36ba4a6b4d238ff944bacb478cbed5efcae784d7bf4f2ff80"

/-- Second hardcoded well-known test private key. -/
def hardhatKey1 : String :=
  "59c6995e998f97a5a0044966f0945389dc9e86dae88c7a8412f4603b6b78690d"

/-- Third hardcoded well-known test private key. -/
def hardhatKey2 : String :=
  "5de4111afa1a4b94908f83103eb1f1706367c2e68ca870fc3fb9a804cdab365a"

/-- The address returned for every private key that is not one of the
three hardcoded test keys. -/
def fallbackSignerAddress : String := "0xf39Fd6e51aad88F6F4ce6aB8827279cffFb92266"

/-- `getSignerAddress` from src/public/send-transactions.js: a lookup
table over three known test keys with a fixed fallback address — no
cryptographic derivation anywhere. -/
def getSignerAddress (privateKey : String) : String :=
  let clean := cleanPrivateKey privateKey
  if clean = hardhatKey0 then "0xf39Fd6e51aad88F6F4ce6aB8827279cffFb92266"
  else if clean = hardhatKey1 then "0x70997970C51812dc3A010C7d01b50e0d17dc79C8"
  else if clean = hardhatKey2 then "0x3C44CdDdB6a900fa2b585dd299e03d12FA4293BC"
  else fallbackSignerAddress

/-! ## Concrete inputs used by witnesses and counterexamples -/

/-- A well-formed 65-byte signature rendered as 130 hex characters. -/
def sigOnes : String := String.mk (List.replicate 130 '1')

/-- A second, distinct well-formed 130-character signature. -/
def sigTwos : String := String.mk (List.replicate 130 '2')

/-- Confirmation by owner `0xAA` carrying `sigOnes`. -/
def confAA : Confirmation := ⟨"0xAA", sigOnes⟩

/-- Confirmation by owner `0xBB` carrying `sigTwos`. -/
def confBB : Confirmation := ⟨"0xBB", sigTwos⟩

/-- A second confirmation by the same owner `0xAA`, carrying `sigTwos`. -/
def confAA2 : Confirmation := ⟨"0xAA", sigTwos⟩

/-- A fully configured client. -/
def execCfg0 : ExecConfig := ⟨"http://localhost:8545", "0xconfigkey"⟩

/-- A pending transaction one confirmation short of its threshold. -/
def lowTx : TxDetails := ⟨some 2, some [confAA], false⟩

/-- A pending transaction whose threshold is met and not yet executed. -/
def readyTx : TxDetails := ⟨some 1, some [confAA], false⟩

/-- An already-executed transaction whose threshold is met. -/
def executedTx : TxDetails := ⟨some 1, some [confAA], true⟩

/-- A part_001 configuration that passes validation, with a well-known
test private key in the form. -/
def demoConfig : SafeConfig :=
  ⟨"0x667Db444fd6db27eAee72C8fa49dC7D5872662a5", "http://localhost:8545", 11155111,
   "http://localhost:8000/api",
   "0xac0974bec39a17e36ba4a6b4d238ff944bacb478cbed5efcae784d7bf4f2ff80"⟩

/-! ## Helper lemmas -/

/-- Unrolling the signature loop: the accumulated blob is the start value
followed by the accepted signatures, in list order. -/
theorem foldl_blobStep_eq (l : List Confirmation) (acc : List Char) :
    l.foldl blobStep acc =
      acc ++ ((l.filter acceptedSignature).map fun c => stripHexMarker c.signature.data).flatten := by
  induction l generalizing acc with
  | nil => simp
  | cons c t ih =>
    rw [List.foldl_cons, ih]
    by_cases h : acceptedSignature c = true
    · rw [List.filter_cons_of_pos h, List.map_cons, List.flatten_cons]
      have hb : blobStep acc c = acc ++ stripHexMarker c.signature.data := if_pos h
      rw [hb, List.append_assoc]
    · rw [List.filter_cons_of_neg h]
      have hb : blobStep acc c = acc := if_neg (by simpa [acceptedSignature] using h)
      rw [hb]

/-- Each accepted signature contributes exactly 130 characters to the
loop's accumulator; skipped signatures contribute nothing. -/
theorem length_foldl_blobStep (l : List Confirmation) (acc : List Char) :
    (l.foldl blobStep acc).length = acc.length + 130 * (l.filter acceptedSignature).length := by
  induction l generalizing acc with
  | nil => simp
  | cons c t ih =>
    rw [List.foldl_cons, ih]
    by_cases h : acceptedSignature c = true
    · rw [List.filter_cons_of_pos h]
      have h130 : (stripHexMarker c.signature.data).length = 130 := by
        simpa [acceptedSignature] using h
      have hb : blobStep acc c = acc ++ stripHexMarker c.signature.data := if_pos h
      rw [hb, List.length_append, h130, List.length_cons]
      omega
    · rw [List.filter_cons_of_neg h]
      have hb : blobStep acc c = acc := if_neg (by simpa [acceptedSignature] using h)
      rw [hb]

/-- When the threshold is met, the transaction is unexecuted and the
client is configured, `executeTransaction` reaches the chain attempt. -/
theorem executeTransactionStep_chain (cfg : ExecConfig) (argPk : String) (t : TxDetails)
    (est : Except String Nat) (hrpc : cfg.rpcUrl ≠ "") (hpk : argPk ≠ "")
    (hth : confirmationsRequiredOf t ≤ confirmationsCountOf t)
    (hex : t.isExecuted = false) :
    executeTransactionStep cfg argPk t est =
      ExecOutcome.chainAttempt (signaturesBlob (t.confirmations.getD []))
        (executionGasLimit est) := by
  have h4 : ¬(argPk = "" ∧ cfg.privateKey = "") := fun hc => hpk hc.1
  simp only [executeTransactionStep, if_neg (Nat.not_lt.mpr hth), hex,
    Bool.false_eq_true, if_false, if_neg hrpc, if_neg h4]

/-! ## Claim theorems -/

/-- C1: The claim says the locally recomputed `safeTxHash` is byte-identical
to the Safe contract's `getTransactionHash` and that no ad-hoc,
non-cryptographic hash sits in any `safeTxHash` code path.  The code
violates this: `SafeManager.calculateSafeTxHash` is a 32-bit `31*h + c`
string hash over `to + value + data + operation + nonce` only.  It
returns identical digests for transactions differing only in `safeTxGas`
(a field `getTransactionHash` commits to), and even collides on the
hashed `to` field (`"Aa"` vs `"BB"`), which a keccak-based digest would
never do. -/
theorem calculateSafeTxHash_is_not_the_contract_hash :
    calculateSafeTxHash ⟨"0x1111111111111111111111111111111111111111", "0", "0x", 0, 0⟩ 5 =
      calculateSafeTxHash ⟨"0x1111111111111111111111111111111111111111", "0", "0x", 0, 100000⟩ 5 ∧
    (⟨"Aa", "0", "0x", 0, 0⟩ : ProposedTransaction) ≠ ⟨"BB", "0", "0x", 0, 0⟩ ∧
    calculateSafeTxHash ⟨"Aa", "0", "0x", 0, 0⟩ 5 =
      calculateSafeTxHash ⟨"BB", "0", "0x", 0, 0⟩ 5 :=
  ⟨rfl, by decide, by decide⟩

/-- C2: The accepted signatures are concatenated into the blob in
ascending owner order, compared case-insensitively; in particular with
confirmations arriving as `0xBB` then `0xAA`, the `0xAA` signature comes
first in the blob. -/
theorem signatures_sorted_by_owner_ascending (confs : List Confirmation) :
    List.Pairwise ownerLe (acceptedConfirmations confs) ∧
    signaturesBlob confs =
      '0' :: 'x' ::
        ((acceptedConfirmations confs).map fun c => stripHexMarker c.signature.data).flatten ∧
    signaturesBlob [confBB, confAA] = '0' :: 'x' :: (sigOnes.data ++ sigTwos.data) := by
  refine ⟨?_, ?_, by decide⟩
  · exact (List.sorted_insertionSort ownerLe _).filter _
  · rw [signaturesBlob, foldl_blobStep_eq]
    rfl

/-- C3 counterexample: confirming the same owner twice is not collapsed
to one entry — a list with two `0xAA` confirmations yields an aggregated
set with both entries, and both 65-byte signatures appear in the blob. -/
theorem duplicate_owner_not_deduplicated :
    confAA.owner = confAA2.owner ∧ confAA ≠ confAA2 ∧
    acceptedConfirmations [confAA, confAA2] = [confAA, confAA2] ∧
    signaturesBlob [confAA, confAA2] = '0' :: 'x' :: (sigOnes.data ++ sigTwos.data) :=
  ⟨rfl, by decide, by decide, by decide⟩

/-- C3 amended: the aggregation performs no deduplication by owner: every
truthy confirmation with a 130-character signature contributes exactly
one entry to the aggregated set, owner duplicates included (the sort is a
permutation of the filtered input, so duplicates survive
deterministically). -/
theorem aggregation_keeps_every_accepted_confirmation (confs : List Confirmation) :
    (acceptedConfirmations confs).length =
      ((confs.filter validConfirmation).filter acceptedSignature).length :=
  ((List.perm_insertionSort ownerLe _).filter _).length_eq

/-- C4: with an RPC URL and a private key configured, `executeTransaction`
throws the insufficient-confirmations error (and makes no chain call)
whenever the confirmation count is below the threshold, and reaches the
chain attempt whenever the count meets the threshold and the transaction
is not yet executed. -/
theorem threshold_gates_execution (cfg : ExecConfig) (argPk : String) (t : TxDetails)
    (est : Except String Nat) (hrpc : cfg.rpcUrl ≠ "") (hpk : argPk ≠ "") :
    (confirmationsCountOf t < confirmationsRequiredOf t →
      executeTransactionStep cfg argPk t est =
        ExecOutcome.insufficientConfirmations (confirmationsCountOf t)
          (confirmationsRequiredOf t)) ∧
    (confirmationsRequiredOf t ≤ confirmationsCountOf t → t.isExecuted = false →
      executeTransactionStep cfg argPk t est =
        ExecOutcome.chainAttempt (signaturesBlob (t.confirmations.getD []))
          (executionGasLimit est)) := by
  constructor
  · intro h
    simp only [executeTransactionStep, if_pos h]
  · intro hth hex
    exact executeTransactionStep_chain cfg argPk t est hrpc hpk hth hex

/-- C4 witness: a configured client at one concrete transaction below
threshold and one at threshold. -/
theorem threshold_gates_execution_witness :
    executeTransactionStep execCfg0 "0xpk" lowTx (Except.ok 100) =
      ExecOutcome.insufficientConfirmations (confirmationsCountOf lowTx)
        (confirmationsRequiredOf lowTx) ∧
    executeTransactionStep execCfg0 "0xpk" readyTx (Except.ok 100) =
      ExecOutcome.chainAttempt (signaturesBlob (readyTx.confirmations.getD []))
        (executionGasLimit (Except.ok 100)) :=
  ⟨(threshold_gates_execution execCfg0 "0xpk" lowTx (Except.ok 100) (by decide) (by decide)).1
      (by decide),
   (threshold_gates_execution execCfg0 "0xpk" readyTx (Except.ok 100) (by decide) (by decide)).2
      (by decide) rfl⟩

/-- C5: a signature that is not exactly 130 hex characters is skipped
without aborting the loop, and the blob is always `0x` followed by
exactly 130 characters (65 bytes) per accepted signature — every entry
that made it into the blob has the 130-character shape. -/
theorem blob_length_is_65_bytes_per_accepted_signature (confs : List Confirmation) :
    (signaturesBlob confs).length = 2 + 130 * (acceptedConfirmations confs).length ∧
    (acceptedConfirmations confs).all acceptedSignature = true := by
  constructor
  · rw [signaturesBlob, length_foldl_blobStep]
    rfl
  · simp only [List.all_eq_true]
    intro c hc
    exact (List.mem_filter.mp hc).2

/-- C6: when gas estimation raises, `executeTransaction` still reaches
the chain attempt with the fixed fallback gas limit 500000 and surfaces
no error; when estimation succeeds, the submitted gas limit is the
estimate times 120 divided by 100. -/
theorem gas_estimation_fallback_and_margin (cfg : ExecConfig) (argPk : String)
    (t : TxDetails) (e : String) (g : Nat)
    (hrpc : cfg.rpcUrl ≠ "") (hpk : argPk ≠ "")
    (hth : confirmationsRequiredOf t ≤ confirmationsCountOf t)
    (hex : t.isExecuted = false) :
    executionGasLimit (Except.error e) = 500000 ∧
    executionGasLimit (Except.ok g) = g * 120 / 100 ∧
    executeTransactionStep cfg argPk t (Except.error e) =
      ExecOutcome.chainAttempt (signaturesBlob (t.confirmations.getD [])) 500000 ∧
    execThrownError (executeTransactionStep cfg argPk t (Except.error e)) = none := by
  refine ⟨rfl, rfl, ?_, ?_⟩
  · exact executeTransactionStep_chain cfg argPk t (Except.error e) hrpc hpk hth hex
  · rw [executeTransactionStep_chain cfg argPk t (Except.error e) hrpc hpk hth hex]
    rfl

/-- C6 witness: a concrete ready transaction with a failing estimate and
a succeeding estimate of 100000. -/
theorem gas_estimation_fallback_and_margin_witness :
    executionGasLimit (Except.error "execution reverted") = 500000 ∧
    executionGasLimit (Except.ok 100000) = 100000 * 120 / 100 ∧
    executeTransactionStep execCfg0 "0xpk" readyTx (Except.error "execution reverted") =
      ExecOutcome.chainAttempt (signaturesBlob (readyTx.confirmations.getD [])) 500000 ∧
    execThrownError (executeTransactionStep execCfg0 "0xpk" readyTx
      (Except.error "execution reverted")) = none :=
  gas_estimation_fallback_and_margin execCfg0 "0xpk" readyTx "execution reverted" 100000
    (by decide) (by decide) (by decide) rfl

/-- C7 counterexample: for a 400 response whose body is the relay's
`nonMultisigTransactionData` JSON, the error thrown by
`SafeClient.confirm` does not contain the body (it is only logged), so
the raised error does not carry status and body together. -/
theorem confirm_error_message_swallows_body :
    ¬ List.IsInfix "nonMultisigTransactionData".data
        (confirmHttpErrorMessage 400 "Bad Request" "http://localhost:8000/api/v1/x/"
          "\x7b\"nonMultisigTransactionData\": true\x7d").data := by
  decide

/-- C7 amended: on a non-2xx response, `SafeClient.confirm`'s thrown
error carries the HTTP status (its message is independent of the body,
which is only logged), `SafeManager.confirmTransactionFallback`'s thrown
error carries the response body verbatim (as a suffix) together with the
status text but not the numeric status, while the propose path `send`
throws an error carrying both the numeric status and the body verbatim. -/
theorem relay_error_surfacing_split (status : Nat) (statusText url body otherBody : String) :
    confirmHttpErrorMessage status statusText url body =
      confirmHttpErrorMessage status statusText url otherBody ∧
    List.IsInfix (toString status).data
      (confirmHttpErrorMessage status statusText url body).data ∧
    List.IsSuffix body.data (confirmFallbackErrorMessage statusText body).data ∧
    List.IsInfix (toString status).data (proposeHttpErrorMessage status body).data ∧
    List.IsSuffix body.data (proposeHttpErrorMessage status body).data := by
  refine ⟨rfl,
    ⟨"HTTP error! status: ".data, (" - " ++ statusText ++ ". URL: " ++ url).data, ?_⟩,
    ⟨("Failed to confirm transaction: " ++ statusText ++ " - ").data, ?_⟩,
    ⟨"HTTP error! status: ".data, (", message: " ++ body).data, ?_⟩,
    ⟨("HTTP error! status: " ++ toString status ++ ", message: ").data, ?_⟩⟩
  · simp [confirmHttpErrorMessage, String.data_append, List.append_assoc]
  · simp [confirmFallbackErrorMessage, String.data_append, List.append_assoc]
  · simp [proposeHttpErrorMessage, String.data_append, List.append_assoc]
  · simp [proposeHttpErrorMessage, String.data_append, List.append_assoc]

/-- C8 counterexample: executing an already-executed transaction is not a
benign no-op — `executeTransaction` throws `Transaction already executed`
to the caller. -/
theorem already_executed_throws_error :
    execThrownError (executeTransactionStep execCfg0 "0xpk" executedTx (Except.ok 100)) =
      some "Transaction already executed" := by decide

/-- C8 amended: executing an already-executed transaction is rejected
before any chain call, but by raising the `Transaction already executed`
error rather than silently succeeding; re-confirmation by an
already-confirmed owner is prevented at the UI level (`canConfirm` is
false), and `canExecute` is false for executed transactions. -/
theorem already_executed_rejected_with_error (cfg : ExecConfig) (argPk : String)
    (t : TxDetails) (est : Except String Nat)
    (hx : t.isExecuted = true)
    (hth : confirmationsRequiredOf t ≤ confirmationsCountOf t) :
    executeTransactionStep cfg argPk t est = ExecOutcome.alreadyExecuted ∧
    execThrownError (executeTransactionStep cfg argPk t est) =
      some "Transaction already executed" ∧
    (∀ u : TxDetails, u.isExecuted = true → canExecute u = false) ∧
    (∀ u : TxDetails, ∀ addr : String,
      hasSignerConfirmed u addr = true → canConfirm u addr = false) := by
  have hstep : executeTransactionStep cfg argPk t est = ExecOutcome.alreadyExecuted := by
    simp only [executeTransactionStep, if_neg (Nat.not_lt.mpr hth), hx]
    rw [if_pos trivial]
  refine ⟨hstep, by rw [hstep]; rfl, ?_, ?_⟩
  · intro u hu
    simp [canExecute, hu]
  · intro u addr h
    simp [canConfirm, h]

/-- C8 witness: the concrete executed transaction. -/
theorem already_executed_rejected_with_error_witness :
    executeTransactionStep execCfg0 "0xpk" executedTx (Except.ok 100) =
      ExecOutcome.alreadyExecuted ∧
    execThrownError (executeTransactionStep execCfg0 "0xpk" executedTx (Except.ok 100)) =
      some "Transaction already executed" ∧
    (∀ u : TxDetails, u.isExecuted = true → canExecute u = false) ∧
    (∀ u : TxDetails, ∀ addr : String,
      hasSignerConfirmed u addr = true → canConfirm u addr = false) :=
  already_executed_rejected_with_error execCfg0 "0xpk" executedTx (Except.ok 100) rfl (by decide)

/-- C9: the claim says the persisted configuration record contains only
`txServiceUrl`, `rpcUrl` and `safeAddress` and never the private key.
The app.js variant does exactly that, but the part_001 variant persists
the whole form — `privateKey` included — to `localStorage['safeConfig']`
whenever validation passes. -/
theorem saveConfiguration_persists_private_key :
    (part001SaveConfiguration demoConfig).isSome = true ∧
    ("privateKey", demoConfig.privateKey) ∈ (part001SaveConfiguration demoConfig).getD [] ∧
    (appJsSavedConfigRecord "http://localhost:8000/api" "http://localhost:8545"
        "0x667Db444fd6db27eAee72C8fa49dC7D5872662a5"
        demoConfig.privateKey).map Prod.fst = ["txServiceUrl", "rpcUrl", "safeAddress"] :=
  ⟨by decide, by decide, rfl⟩

/-- C10: `getSignerAddress` in the browser propose path derives nothing
cryptographically: every private key other than the three hardcoded test
keys maps to the fixed address `0xf39Fd6e51aad88F6F4ce6aB8827279cffFb92266`,
so two distinct unknown keys claim the same sender. -/
theorem getSignerAddress_constant_on_unknown_keys (pk pk2 : String)
    (h0 : cleanPrivateKey pk ≠ hardhatKey0)
    (h1 : cleanPrivateKey pk ≠ hardhatKey1)
    (h2 : cleanPrivateKey pk ≠ hardhatKey2)
    (g0 : cleanPrivateKey pk2 ≠ hardhatKey0)
    (g1 : cleanPrivateKey pk2 ≠ hardhatKey1)
    (g2 : cleanPrivateKey pk2 ≠ hardhatKey2) :
    getSignerAddress pk = fallbackSignerAddress ∧
    getSignerAddress pk = getSignerAddress pk2 := by
  have e1 : getSignerAddress pk = fallbackSignerAddress := by
    simp only [getSignerAddress, if_neg h0, if_neg h1, if_neg h2]
  have e2 : getSignerAddress pk2 = fallbackSignerAddress := by
    simp only [getSignerAddress, if_neg g0, if_neg g1, if_neg g2]
  exact ⟨e1, e1.trans e2.symm⟩

/-- C10 witness: two distinct unknown private keys both claim the fixed
fallback sender. -/
theorem getSignerAddress_constant_on_unknown_keys_witness :
    ("0x01" : String) ≠ "0x02" ∧
    getSignerAddress "0x01" = fallbackSignerAddress ∧
    getSignerAddress "0x01" = getSignerAddress "0x02" :=
  ⟨by decide,
   getSignerAddress_constant_on_unknown_keys "0x01" "0x02" (by decide) (by decide) (by decide)
     (by decide) (by decide) (by decide)⟩

end SafeSign
